import Mathlib

/-!
Verification of the SCD Type 2 pipeline in `delta_to_postgres_scd.py`.

The Python code builds SQL strings and executes them against PostgreSQL.
The shallow embedding below models, over explicit state:
  * the row store of the target table (`StoredRow` list, insertion order),
  * the PostgreSQL semantics of the two statements generated by
    `upsert_scd_data` (an `INSERT .. ON CONFLICT .. DO UPDATE` retire step
    against the partial unique index `(business key) WHERE is_current = TRUE`,
    followed by an `INSERT .. ON CONFLICT .. DO NOTHING` insert step),
  * `create_scd_table` (schema / table / index creation with IF NOT EXISTS),
  * `read_delta_table` (subprocess result scanning and JSON extraction),
  * the column-type inference and the driver `sync_delta_to_postgres_scd`.

Values at the storage layer are modelled as nullable text
(`Option String`): the Python code serializes every value into a SQL
literal, and the change comparison generated at lines 250-254 of the
source is COALESCE-based text comparison.  Timestamps (CURRENT_TIMESTAMP)
are modelled by an explicit `now : Nat` parameter.
-/

/-- A record at the storage layer: ordered mapping column name to nullable
value (the SQL literal the Python code renders). -/
abbrev Row := List (String × Option String)

/-- One persisted row of the target table: business data plus the SCD
bookkeeping fields added by `upsert_scd_data` (lines 196-203). -/
structure StoredRow where
  data : Row
  effective_date : Nat
  end_date : Option Nat
  is_current : Bool
  created_at : Nat
  updated_at : Nat
deriving Repr, DecidableEq

/-- Value of column `c` in row `r`; `none` both for SQL NULL and for an
absent column (an absent column reads as NULL at the comparison level). -/
def lookupCol (r : Row) (c : String) : Option String :=
  ((r.find? (fun p => p.1 == c)).map (fun p => p.2)).join

/-- Index-conflict comparison of two nullable values: in a PostgreSQL
unique index NULLs are distinct, so a conflict needs both sides non-null
and equal. -/
def optPairEq (x y : Option String) : Bool :=
  match x, y with
  | some a, some b => a == b
  | _, _ => false

/-- Two rows collide on the partial unique index over the business-key
columns: every key column is non-null on both sides and equal. -/
def rowsConflict (bk : List String) (r s : Row) : Bool :=
  bk.all (fun k => optPairEq (lookupCol r k) (lookupCol s k))

/-- COALESCE(x, empty string): the null-equality policy of the generated
DO UPDATE WHERE clause (source lines 250-254). -/
def coalesceEmpty (v : Option String) : String := v.getD ""

/-- The generated WHERE clause of the retire step: some non-key data
column differs under the COALESCE policy. -/
def rowChanged (bk dataCols : List String) (incoming stored : Row) : Bool :=
  (dataCols.filter (fun c => !bk.contains c)).any
    (fun c => coalesceEmpty (lookupCol stored c) != coalesceEmpty (lookupCol incoming c))

/-- A freshly inserted current row: effective_date = now, end_date = NULL,
is_current = TRUE, created_at = updated_at = now (source lines 196-203). -/
def newCurrentRow (now : Nat) (r : Row) : StoredRow :=
  { data := r, effective_date := now, end_date := none, is_current := true,
    created_at := now, updated_at := now }

/-- The DO UPDATE SET of the retire step: end_date = now, is_current =
FALSE, updated_at = now (source lines 246-249). -/
def retireRow (now : Nat) (s : StoredRow) : StoredRow :=
  { s with end_date := some now, is_current := false, updated_at := now }

/-- One VALUES tuple of the retire statement: if some stored row is
current and collides with the incoming row on the business key, the
conflicting row is updated (retired) when the data changed, otherwise
left alone, and `some` of the new store is returned; `none` means no
conflict, i.e. the tuple is inserted. -/
def onConflictUpdate (bk dataCols : List String) (now : Nat) (r : Row) :
    List StoredRow → Option (List StoredRow)
  | [] => none
  | s :: rest =>
    if s.is_current && rowsConflict bk r s.data then
      some ((if rowChanged bk dataCols r s.data then retireRow now s else s) :: rest)
    else
      (onConflictUpdate bk dataCols now r rest).map (fun l => s :: l)

/-- Retire statement, one incoming tuple: on conflict retire-if-changed,
otherwise insert the tuple as a new current row. -/
def upsertStmt1Row (bk dataCols : List String) (now : Nat)
    (st : List StoredRow) (r : Row) : List StoredRow :=
  match onConflictUpdate bk dataCols now r st with
  | some st' => st'
  | none => st ++ [newCurrentRow now r]

/-- First generated statement (source lines 242-254), over the whole
VALUES list. -/
def upsertStmt1 (bk dataCols : List String) (now : Nat)
    (data : List Row) (st : List StoredRow) : List StoredRow :=
  data.foldl (upsertStmt1Row bk dataCols now) st

/-- The incoming tuple collides with some stored current row. -/
def hasCurrentConflict (bk : List String) (r : Row) (st : List StoredRow) : Bool :=
  st.any (fun s => s.is_current && rowsConflict bk r s.data)

/-- Insert statement, one tuple: ON CONFLICT DO NOTHING. -/
def upsertStmt2Row (bk : List String) (now : Nat)
    (st : List StoredRow) (r : Row) : List StoredRow :=
  if hasCurrentConflict bk r st then st else st ++ [newCurrentRow now r]

/-- Second generated statement (source lines 256-260). -/
def upsertStmt2 (bk : List String) (now : Nat)
    (data : List Row) (st : List StoredRow) : List StoredRow :=
  data.foldl (upsertStmt2Row bk now) st

/-- No two stored current rows collide on the business key: the condition
under which `CREATE UNIQUE INDEX .. WHERE is_current = TRUE` succeeds. -/
def currentConflictFree (bk : List String) : List StoredRow → Bool
  | [] => true
  | s :: rest =>
      (!s.is_current || rest.all (fun t => !(t.is_current && rowsConflict bk s.data t.data)))
        && currentConflictFree bk rest

/-- No two tuples of one VALUES list collide on the business key;
otherwise PostgreSQL raises the cardinality error of ON CONFLICT DO
UPDATE (a command may not affect one target row twice). -/
def batchKeysDistinct (bk : List String) : List Row → Bool
  | [] => true
  | r :: rest => rest.all (fun r2 => !rowsConflict bk r r2) && batchKeysDistinct bk rest

/-- Column names of the INSERT list: taken from the first record
(source line 209). -/
def dataColsOf (data : List Row) : List String :=
  (data.head?.getD []).map (fun p => p.1)

/-- A VALUES tuple is matched to the INSERT column list positionally:
the Python code emits each record's values in its own order against the
first record's column names. -/
def positionalRow (cols : List String) (r : Row) : Row :=
  cols.zip (r.map (fun p => p.2))

/-- The six fixed columns `create_scd_table` merges into every table
(source lines 143-150): a SERIAL surrogate key plus the five SCD
bookkeeping columns. -/
def scd_columns : List (String × String) :=
  [("scd_id", "SERIAL PRIMARY KEY"),
   ("effective_date", "TIMESTAMP DEFAULT CURRENT_TIMESTAMP"),
   ("end_date", "TIMESTAMP"),
   ("is_current", "BOOLEAN DEFAULT TRUE"),
   ("created_at", "TIMESTAMP DEFAULT CURRENT_TIMESTAMP"),
   ("updated_at", "TIMESTAMP DEFAULT CURRENT_TIMESTAMP")]

/-- The names of the six fixed columns: together with the first record's
columns these are the columns of the table the pipeline writes to, so
they are the names the index DDL may legally reference. -/
def scdColNames : List String :=
  scd_columns.map (fun p => p.1)

/-- `upsert_scd_data` (source lines 177-267).  Returns the list of
executed queries (the index DDL and the upsert, in execution order) and
either an error raised by the store or the new row store.
Error cases modelled:
  * empty batch: early return, no query issued (line 179);
  * empty business key: the index DDL has an empty column list, a syntax
    error rejected by the store;
  * a key column absent from the table's columns, which are the first
    record's columns plus the six fixed SCD columns of
    `create_scd_table`: the index DDL names an unknown column (a key
    column that is only a bookkeeping column, such as effective_date,
    is legal and raises nothing);
  * two stored current rows already collide: CREATE UNIQUE INDEX fails;
  * a record with a different arity than the column list: the INSERT is
    rejected;
  * no non-key data column: the generated DO UPDATE WHERE clause is the
    empty string, a syntax error;
  * two tuples of the batch collide on the key: ON CONFLICT DO UPDATE
    cardinality error. -/
def upsert_scd_data (bk : List String) (now : Nat) (data : List Row)
    (st : List StoredRow) : List String × Except String (List StoredRow) :=
  if data.isEmpty then ([], .ok st)
  else if bk.isEmpty then
    (["index_sql"], .error "syntax error in CREATE UNIQUE INDEX: empty column list")
  else if !(bk.all (fun k => (dataColsOf data).contains k || scdColNames.contains k)) then
    (["index_sql"], .error "CREATE UNIQUE INDEX: column does not exist")
  else if !(currentConflictFree bk st) then
    (["index_sql"], .error "could not create unique index: key is duplicated")
  else if !(data.all (fun r => r.length == (dataColsOf data).length)) then
    (["index_sql", "upsert_sql"], .error "INSERT has a wrong number of expressions")
  else if ((dataColsOf data).filter (fun c => !bk.contains c)).isEmpty then
    (["index_sql", "upsert_sql"], .error "syntax error in DO UPDATE WHERE: empty condition")
  else if !(batchKeysDistinct bk (data.map (positionalRow (dataColsOf data)))) then
    (["index_sql", "upsert_sql"], .error "ON CONFLICT DO UPDATE command cannot affect row a second time")
  else
    (["index_sql", "upsert_sql"],
      .ok (upsertStmt2 bk now (data.map (positionalRow (dataColsOf data)))
            (upsertStmt1 bk (dataColsOf data) now (data.map (positionalRow (dataColsOf data))) st)))

/-- The state effect of `upsert_scd_data`, ignoring the query trace. -/
def applyUpsert (bk : List String) (now : Nat) (data : List Row)
    (st : List StoredRow) : Except String (List StoredRow) :=
  (upsert_scd_data bk now data st).2

/-- A stored row carries the (fully non-null) key values `K` on the
business-key columns `bk`. -/
def matchesKey (bk K : List String) (r : Row) : Bool :=
  bk.length == K.length && (bk.zip K).all (fun p => lookupCol r p.1 == some p.2)

/-- Number of stored current rows carrying key values `K`. -/
def countCurrent (bk K : List String) (st : List StoredRow) : Nat :=
  (st.filter (fun s => s.is_current && matchesKey bk K s.data)).length

/-- Number of stored historical rows carrying key values `K`. -/
def countHistoricalFor (bk K : List String) (st : List StoredRow) : Nat :=
  (st.filter (fun s => !s.is_current && matchesKey bk K s.data)).length

/-- Total number of historical rows in the store. -/
def countHistoricalTotal (st : List StoredRow) : Nat :=
  (st.filter (fun s => !s.is_current)).length

/-! ### Schema synchronizer: `create_scd_table` (source lines 140-175) -/

/-- `needle` occurs as a prefix of the character list. -/
def preChars : List Char → List Char → Bool
  | [], _ => true
  | _ :: _, [] => false
  | a :: as, b :: bs => a == b && preChars as bs

/-- `needle` occurs somewhere inside the character list. -/
def hasSubChars (needle : List Char) : List Char → Bool
  | [] => preChars needle []
  | c :: rest => preChars needle (c :: rest) || hasSubChars needle rest

/-- Python `needle in hay` on strings. -/
def strHasSub (hay needle : String) : Bool :=
  hasSubChars needle.toList hay.toList

/-- Python `str.lower()` (ASCII case mapping, enough for column names). -/
def pyLower (s : String) : String :=
  String.mk (s.toList.map Char.toLower)

/-- The naming heuristic of source line 169: a column is key-like when its
lowercased name contains the substring id or key. -/
def keyLike (c : String) : Bool :=
  strHasSub (pyLower c) "id" || strHasSub (pyLower c) "key"

/-- Python dict merge of the business columns with `scd_columns`
(the latter win on a name collision, keeping the earlier position). -/
def mergeColumns (columns : List (String × String)) : List (String × String) :=
  columns.map (fun p => (p.1, ((scd_columns.find? (fun q => q.1 == p.1)).map (fun q => q.2)).getD p.2))
    ++ scd_columns.filter (fun q => !(columns.any (fun p => p.1 == q.1)))

/-- The column list of the generated CREATE UNIQUE INDEX of source lines
166-171, as the comma-separated pieces of its text: the join of the first
key-like business column (the join of an empty list being the empty
string), then effective_date. -/
def indexColumnList (columns : List (String × String)) : List String :=
  [String.intercalate ", " (((columns.map (fun p => p.1)).filter keyLike).take 1),
   "effective_date"]

/-- A table of the modelled store. -/
structure PgTable where
  schema : String
  name : String
  cols : List (String × String)
deriving Repr, DecidableEq

/-- An index of the modelled store. -/
structure PgIndex where
  name : String
  cols : List String
deriving Repr, DecidableEq

/-- The modelled PostgreSQL state: schemas, tables, indexes, and the rows
of the single target table. -/
structure PgState where
  schemas : List String
  tables : List PgTable
  indexes : List PgIndex
  rows : List StoredRow
deriving Repr, DecidableEq

/-- The empty store. -/
def pgEmpty : PgState := { schemas := [], tables := [], indexes := [], rows := [] }

/-- CREATE SCHEMA IF NOT EXISTS. -/
def addSchema (schema_name : String) (st : PgState) : PgState :=
  if st.schemas.contains schema_name then st
  else { st with schemas := st.schemas ++ [schema_name] }

/-- CREATE TABLE IF NOT EXISTS on the merged column list. -/
def addTable (schema_name table_name : String) (columns : List (String × String))
    (st : PgState) : PgState :=
  if st.tables.any (fun t => t.schema == schema_name && t.name == table_name) then st
  else { st with tables := st.tables ++
          [{ schema := schema_name, name := table_name, cols := mergeColumns columns }] }

/-- CREATE UNIQUE INDEX IF NOT EXISTS (by index name). -/
def addIndexIfAbsent (idxName : String) (idxCols : List String) (st : PgState) : PgState :=
  if st.indexes.any (fun i => i.name == idxName) then st
  else { st with indexes := st.indexes ++ [{ name := idxName, cols := idxCols }] }

/-- `create_scd_table` (source lines 140-175): one statement batch with
CREATE SCHEMA IF NOT EXISTS, CREATE TABLE IF NOT EXISTS on the merged
columns, and CREATE UNIQUE INDEX IF NOT EXISTS on (first key-like
business column, effective_date).  When no business column is key-like
the index DDL has an empty leading column and the whole batch is rejected
as a syntax error before anything executes. -/
def create_scd_table (schema_name table_name : String)
    (columns : List (String × String)) (st : PgState) : Except String PgState :=
  if ((((columns.map (fun p => p.1)).filter keyLike).take 1)).isEmpty then
    .error "syntax error in CREATE UNIQUE INDEX: empty leading column"
  else
    .ok (addIndexIfAbsent ("idx_" ++ table_name ++ "_business_key_effective")
          (((columns.map (fun p => p.1)).filter keyLike).take 1 ++ ["effective_date"])
          (addTable schema_name table_name columns (addSchema schema_name st)))

/-! ### Source reader: `read_delta_table` (source lines 51-105) -/

/-- A Python value as decoded from the scanner JSON output. -/
inductive PyVal
  | vnull
  | vint (n : Int)
  | vfloat (s : String)
  | vbool (b : Bool)
  | vstr (s : String)
deriving Repr, DecidableEq

/-- A decoded record. -/
abbrev PyRow := List (String × PyVal)

/-- The result of the external scanner subprocess. -/
structure SubprocResult where
  returncode : Int
  stdout : String
  stderr : String

/-- Drop leading whitespace characters. -/
def dropWhileWs : List Char → List Char
  | [] => []
  | c :: rest => if c.isWhitespace then dropWhileWs rest else c :: rest

/-- Python `str.strip()`: whitespace removed from both ends. -/
def pyStrip (s : String) : String :=
  String.mk (List.reverse (dropWhileWs (List.reverse (dropWhileWs s.toList))))

/-- Splitting accumulator for `splitNl`. -/
def splitNlAux : List Char → List Char → List String
  | [], acc => [String.mk acc.reverse]
  | c :: rest, acc =>
    if c = Char.ofNat 10 then String.mk acc.reverse :: splitNlAux rest []
    else splitNlAux rest (c :: acc)

/-- Python `str.split(newline)`. -/
def splitNl (s : String) : List String :=
  splitNlAux s.toList []

/-- The line scan of source lines 73-103: collect from a line equal to
the opening bracket up to a line equal to the closing bracket, then parse
once; a parse failure is caught, logged and the loop breaks with the
empty accumulator.  `J` models `json.loads` restricted to arrays (`none`
is a decode error). -/
def scanLines (J : String → Option (List PyRow)) :
    List String → Bool → String → List PyRow
  | [], _, _ => []
  | l :: ls, inArr, content =>
    if pyStrip l = "[" then scanLines J ls true "["
    else if inArr then
      if pyStrip l = "]" then
        match J (content ++ "\n" ++ pyStrip l) with
        | some xs => xs
        | none => []
      else scanLines J ls true (content ++ "\n" ++ pyStrip l)
    else scanLines J ls inArr content

/-- `read_delta_table` (source lines 51-105): a non-zero exit status of
the scanner raises; otherwise the stdout is scanned for one JSON array. -/
def read_delta_table (J : String → Option (List PyRow)) (res : SubprocResult) :
    Except String (List PyRow) :=
  if res.returncode ≠ 0 then .error ("Delta scanner failed: " ++ res.stderr)
  else .ok (scanLines J (splitNl (pyStrip res.stdout)) false "")

/-! ### Driver: `sync_delta_to_postgres_scd` (source lines 269-337) -/

/-- Python `isinstance(v, int)`: true also for booleans, bool being a
subclass of int. -/
def isinstance_int : PyVal → Bool
  | .vint _ => true
  | .vbool _ => true
  | _ => false

/-- Python `isinstance(v, float)`. -/
def isinstance_float : PyVal → Bool
  | .vfloat _ => true
  | _ => false

/-- Python `isinstance(v, bool)`. -/
def isinstance_bool : PyVal → Bool
  | .vbool _ => true
  | _ => false

/-- The per-value type inference of source lines 312-320, with the
branches in source order. -/
def inferColType (v : PyVal) : String :=
  if isinstance_int v then "INTEGER"
  else if isinstance_float v then "DECIMAL"
  else if isinstance_bool v then "BOOLEAN"
  else "TEXT"

/-- Column types inferred from the first record only (source lines
308-320). -/
def inferColumnTypes (rows : List PyRow) : List (String × String) :=
  match rows with
  | [] => []
  | first :: _ => first.map (fun p => (p.1, inferColType p.2))

/-- The SQL literal the Python code renders for a value (source lines
188-194): None becomes NULL, strings are quoted, anything else is
`str(value)`. -/
def pyToSqlText : PyVal → Option String
  | .vnull => none
  | .vstr s => some s
  | .vint n => some (toString n)
  | .vfloat s => some s
  | .vbool b => some (if b then "True" else "False")

/-- A decoded record as the storage-layer row it is serialized into. -/
def toSqlRow (r : PyRow) : Row :=
  r.map (fun p => (p.1, pyToSqlText p.2))

/-- Python dict assignment on an association list. -/
def dictSet (r : PyRow) (k : String) (v : PyVal) : PyRow :=
  if r.any (fun p => p.1 == k) then r.map (fun p => if p.1 == k then (k, v) else p)
  else r ++ [(k, v)]

/-- The column-rename step of source lines 286-298: mapped columns first
in mapping order, then the unmapped columns of the record. -/
def applyMapping (mapping : List (String × String)) (row : PyRow) : PyRow :=
  let mapped := mapping.foldl (fun acc p =>
    match row.find? (fun q => q.1 == p.1) with
    | some q => dictSet acc p.2 q.2
    | none => acc) []
  row.foldl (fun acc q =>
    if mapping.any (fun p => p.1 == q.1) then acc else dictSet acc q.1 q.2) mapped

/-- The summary dict returned on success (source lines 331-337). -/
structure SyncSummary where
  source_table : String
  target_table : String
  records_processed : Nat
deriving Repr, DecidableEq

/-- `sync_delta_to_postgres_scd` (source lines 269-337): read, return
early with no summary and no storage access when the batch is empty,
rename columns, infer types, create the table, upsert.  Token generation
is pure glue with no storage effect and is not modelled. -/
def sync_delta_to_postgres_scd (J : String → Option (List PyRow))
    (res : SubprocResult) (delta_table pg_schema pg_table : String)
    (bk : List String) (column_mapping : Option (List (String × String)))
    (now : Nat) (st : PgState) : Except String (PgState × Option SyncSummary) :=
  match read_delta_table J res with
  | .error e => .error e
  | .ok data_rows =>
    if data_rows.isEmpty then .ok (st, none)
    else
      let mapped := match column_mapping with
        | some m => data_rows.map (applyMapping m)
        | none => data_rows
      let column_types := inferColumnTypes mapped
      match create_scd_table pg_schema pg_table column_types st with
      | .error e => .error e
      | .ok st1 =>
        match upsert_scd_data bk now (mapped.map toSqlRow) st1.rows with
        | (_, .error e) => .error e
        | (_, .ok rows2) =>
          .ok ({ st1 with rows := rows2 },
               some { source_table := delta_table,
                      target_table := pg_schema ++ "." ++ pg_table,
                      records_processed := mapped.length })

/-! ### Invariant lemmas for the retire and insert statements -/

lemma bool_and_split {a b : Bool} (h : (a && b) = true) : a = true ∧ b = true := by
  simp at h; exact h

lemma string_beq_symm (a b : String) : (a == b) = (b == a) := by
  by_cases h : a = b <;> simp [h]
  exact fun hh => h hh.symm

lemma optPairEq_symm (x y : Option String) : optPairEq x y = optPairEq y x := by
  cases x <;> cases y <;> simp only [optPairEq]
  exact string_beq_symm _ _

lemma rowsConflict_symm (bk : List String) (r s : Row) :
    rowsConflict bk r s = rowsConflict bk s r := by
  induction bk with
  | nil => rfl
  | cons k ks ih =>
    show (optPairEq (lookupCol r k) (lookupCol s k) && rowsConflict ks r s)
        = (optPairEq (lookupCol s k) (lookupCol r k) && rowsConflict ks s r)
    rw [optPairEq_symm, ih]

lemma ccf_append_new (bk : List String) (now : Nat) (r : Row) :
    ∀ st : List StoredRow, currentConflictFree bk st = true →
      (∀ s ∈ st, (s.is_current && rowsConflict bk r s.data) = false) →
      currentConflictFree bk (st ++ [newCurrentRow now r]) = true := by
  intro st
  induction st with
  | nil =>
    intro _ _
    simp [currentConflictFree, newCurrentRow]
  | cons s rest ih =>
    intro hccf hno
    obtain ⟨h1, h2⟩ := bool_and_split hccf
    have hrest : currentConflictFree bk (rest ++ [newCurrentRow now r]) = true :=
      ih h2 (fun t ht => hno t (List.mem_cons_of_mem s ht))
    simp only [List.cons_append, currentConflictFree, Bool.and_eq_true]
    refine ⟨?_, hrest⟩
    cases hcur : s.is_current with
    | false => simp
    | true =>
      rw [hcur] at h1
      simp only [Bool.not_true, Bool.false_or] at h1
      have hs := hno s (List.mem_cons_self s rest)
      rw [hcur, Bool.true_and] at hs
      simp only [Bool.not_true, Bool.false_or]
      rw [List.append_eq, List.all_append]
      simp only [List.all_cons, List.all_nil, Bool.and_true]
      rw [h1]
      simp [newCurrentRow, rowsConflict_symm bk s.data r, hs]

lemma ocu_none (bk dataCols : List String) (now : Nat) (r : Row) :
    ∀ st : List StoredRow, onConflictUpdate bk dataCols now r st = none →
      ∀ s ∈ st, (s.is_current && rowsConflict bk r s.data) = false := by
  intro st
  induction st with
  | nil => intro _ s hs; cases hs
  | cons s rest ih =>
    intro h t ht
    simp only [onConflictUpdate] at h
    split at h
    · cases h
    · rcases List.mem_cons.mp ht with rfl | hmem
      · rename_i hc
        exact Bool.not_eq_true _ |>.mp hc
      · exact ih (Option.map_eq_none'.mp h) t hmem

lemma ocu_mem (bk dataCols : List String) (now : Nat) (r : Row) :
    ∀ st st' : List StoredRow, onConflictUpdate bk dataCols now r st = some st' →
      ∀ t' ∈ st', ∃ t ∈ st, t'.data = t.data ∧ (t'.is_current = true → t.is_current = true) := by
  intro st
  induction st with
  | nil => intro st' h; cases h
  | cons s rest ih =>
    intro st' h t' ht'
    simp only [onConflictUpdate] at h
    split at h
    · injection h with h
      subst h
      rcases List.mem_cons.mp ht' with rfl | hmem
      · refine ⟨s, List.mem_cons_self s rest, ?_⟩
        by_cases hch : rowChanged bk dataCols r s.data = true
        · rw [if_pos hch]
          exact ⟨rfl, by intro hh; simp [retireRow] at hh⟩
        · rw [if_neg hch]
          exact ⟨rfl, fun hh => hh⟩
      · exact ⟨t', List.mem_cons_of_mem s hmem, rfl, fun hh => hh⟩
    · rcases Option.map_eq_some'.mp h with ⟨l, hl, rfl⟩
      rcases List.mem_cons.mp ht' with rfl | hmem
      · exact ⟨t', List.mem_cons_self t' rest, rfl, fun hh => hh⟩
      · rcases ih l hl t' hmem with ⟨t, htmem, hdata, hcur⟩
        exact ⟨t, List.mem_cons_of_mem s htmem, hdata, hcur⟩

lemma ocu_preserves (bk dataCols : List String) (now : Nat) (r : Row) :
    ∀ st st' : List StoredRow, onConflictUpdate bk dataCols now r st = some st' →
      currentConflictFree bk st = true → currentConflictFree bk st' = true := by
  intro st
  induction st with
  | nil => intro st' h; cases h
  | cons s rest ih =>
    intro st' h hccf
    obtain ⟨h1, h2⟩ := bool_and_split hccf
    simp only [onConflictUpdate] at h
    split at h
    · injection h with h
      subst h
      simp only [currentConflictFree, Bool.and_eq_true]
      refine ⟨?_, h2⟩
      by_cases hch : rowChanged bk dataCols r s.data = true
      · rw [if_pos hch]
        simp [retireRow]
      · rw [if_neg hch]
        exact h1
    · rcases Option.map_eq_some'.mp h with ⟨l, hl, rfl⟩
      simp only [currentConflictFree, Bool.and_eq_true]
      refine ⟨?_, ih l hl h2⟩
      cases hcur : s.is_current with
      | false => simp
      | true =>
        rw [hcur] at h1
        simp only [Bool.not_true, Bool.false_or] at h1
        simp only [Bool.not_true, Bool.false_or]
        rw [List.all_eq_true] at h1 ⊢
        intro t' ht'
        rcases ocu_mem bk dataCols now r rest l hl t' ht' with ⟨t, htmem, hdata, hcur'⟩
        cases hc' : t'.is_current with
        | false => simp [hc']
        | true =>
          have := h1 t htmem
          rw [hcur' hc'] at this
          simp only [Bool.true_and, Bool.not_eq_true', hdata] at this ⊢
          simp [hc', this]

lemma stmt1Row_preserves (bk dataCols : List String) (now : Nat) (st : List StoredRow) (r : Row)
    (h : currentConflictFree bk st = true) :
    currentConflictFree bk (upsertStmt1Row bk dataCols now st r) = true := by
  unfold upsertStmt1Row
  cases hocu : onConflictUpdate bk dataCols now r st with
  | some st' => exact ocu_preserves bk dataCols now r st st' hocu h
  | none => exact ccf_append_new bk now r st h (ocu_none bk dataCols now r st hocu)

lemma stmt2Row_preserves (bk : List String) (now : Nat) (st : List StoredRow) (r : Row)
    (h : currentConflictFree bk st = true) :
    currentConflictFree bk (upsertStmt2Row bk now st r) = true := by
  unfold upsertStmt2Row
  by_cases hc : hasCurrentConflict bk r st = true
  · rw [if_pos hc]; exact h
  · rw [if_neg hc]
    refine ccf_append_new bk now r st h ?_
    intro s hs
    rw [Bool.not_eq_true] at hc
    unfold hasCurrentConflict at hc
    by_cases hp : (s.is_current && rowsConflict bk r s.data) = true
    · have hany : (st.any fun t => t.is_current && rowsConflict bk r t.data) = true :=
        List.any_eq_true.mpr ⟨s, hs, hp⟩
      rw [hc] at hany
      cases hany
    · exact Bool.eq_false_iff.mpr hp

lemma foldl_preserve {α β : Type} (step : α → β → α) (P : α → Prop)
    (hstep : ∀ a b, P a → P (step a b)) :
    ∀ (l : List β) (a : α), P a → P (l.foldl step a) := by
  intro l
  induction l with
  | nil => intro a h; exact h
  | cons b bs ih => intro a h; exact ih (step a b) (hstep a b h)

lemma stmt1_preserves (bk dataCols : List String) (now : Nat) (data : List Row)
    (st : List StoredRow) (h : currentConflictFree bk st = true) :
    currentConflictFree bk (upsertStmt1 bk dataCols now data st) = true :=
  foldl_preserve _ (fun x => currentConflictFree bk x = true)
    (fun a b hh => stmt1Row_preserves bk dataCols now a b hh) data st h

lemma stmt2_preserves (bk : List String) (now : Nat) (data : List Row)
    (st : List StoredRow) (h : currentConflictFree bk st = true) :
    currentConflictFree bk (upsertStmt2 bk now data st) = true :=
  foldl_preserve _ (fun x => currentConflictFree bk x = true)
    (fun a b hh => stmt2Row_preserves bk now a b hh) data st h

lemma matches_implies_conflict (bk : List String) (a b : Row) :
    ∀ K : List String, matchesKey bk K a = true → matchesKey bk K b = true →
      rowsConflict bk a b = true := by
  induction bk with
  | nil => intro K _ _; rfl
  | cons k ks ih =>
    intro K ha hb
    cases K with
    | nil => simp [matchesKey] at ha
    | cons v vs =>
      simp only [matchesKey, List.length_cons, List.zip_cons_cons, List.all_cons,
        Bool.and_eq_true, beq_iff_eq] at ha hb
      have hlena := ha.1
      have hheada := ha.2.1
      have htaila := ha.2.2
      have hlenb := hb.1
      have hheadb := hb.2.1
      have htailb := hb.2.2
      show (optPairEq (lookupCol a k) (lookupCol b k) && rowsConflict ks a b) = true
      rw [Bool.and_eq_true]
      constructor
      · rw [hheada, hheadb]
        simp [optPairEq]
      · refine ih vs ?_ ?_
        · simp only [matchesKey, Bool.and_eq_true, beq_iff_eq]
          exact ⟨by omega, htaila⟩
        · simp only [matchesKey, Bool.and_eq_true, beq_iff_eq]
          exact ⟨by omega, htailb⟩

lemma ccf_count_le_one (bk K : List String) :
    ∀ st : List StoredRow, currentConflictFree bk st = true →
      countCurrent bk K st ≤ 1 := by
  intro st
  induction st with
  | nil => intro _; simp [countCurrent]
  | cons s rest ih =>
    intro h
    obtain ⟨h1, h2⟩ := bool_and_split h
    by_cases hs : (s.is_current && matchesKey bk K s.data) = true
    · obtain ⟨hcur, hmk⟩ := bool_and_split hs
      rw [hcur] at h1
      simp only [Bool.not_true, Bool.false_or] at h1
      rw [List.all_eq_true] at h1
      have hrest0 : rest.filter (fun t => t.is_current && matchesKey bk K t.data) = [] := by
        rw [List.filter_eq_nil_iff]
        intro t ht hpt
        obtain ⟨htc, htk⟩ := bool_and_split (by simpa using hpt)
        have hconf := matches_implies_conflict bk s.data t.data K hmk htk
        have := h1 t ht
        rw [htc, hconf] at this
        simp at this
      unfold countCurrent
      rw [List.filter_cons, if_pos (by simpa using hs), List.length_cons, hrest0]
      simp
    · unfold countCurrent
      rw [List.filter_cons, if_neg (by simpa using hs)]
      exact ih h2

/-- C1: After every invocation of `upsert_scd_data`, for every business
key K (a tuple of non-null key values, the only tuples SQL equality can
select), the number of stored rows carrying K with is_current = true is
at most 1.  The operation enforces this by dropping and recreating,
before the upsert statement, the unique partial index on the business-key
columns restricted to current rows (modelled by the
`currentConflictFree` entry check, which CREATE UNIQUE INDEX performs),
and both statements preserve the constraint.  The invariant is inductive:
it holds of the empty store and every successful call preserves it, so
the `hinv` hypothesis is available after any history of apply calls. -/
theorem upsert_preserves_single_current (bk : List String) (now : Nat)
    (data : List Row) (st st' : List StoredRow)
    (hinv : currentConflictFree bk st = true)
    (hok : applyUpsert bk now data st = .ok st') (K : List String) :
    countCurrent bk K st' ≤ 1 := by
  unfold applyUpsert upsert_scd_data at hok
  split_ifs at hok with h0 h1 h2 h3 h4 h5 h6
  all_goals first
    | (injection hok with h
       subst h
       exact ccf_count_le_one bk K st hinv)
    | (injection hok with h
       subst st'
       exact ccf_count_le_one bk K _
         (stmt2_preserves _ _ _ _ (stmt1_preserves _ _ _ _ _ hinv)))

theorem upsert_preserves_single_current_witness :
    countCurrent ["id"] ["1"]
      [newCurrentRow 0 [("id", some "1"), ("status", some "A")]] ≤ 1 :=
  upsert_preserves_single_current ["id"] 0 [[("id", some "1"), ("status", some "A")]] []
    [newCurrentRow 0 [("id", some "1"), ("status", some "A")]] rfl rfl ["1"]

/-- C2: Applying batch A (keys k1, k2) and then batch B containing key k1
with a different non-key value yields, for k1, exactly one historical row
(the A version, is_current = false, end_date set to the second apply
time) and exactly one current row (the B version); the row of the other
key k2 is untouched (still the identical current row, zero history). -/
theorem scd_history_preservation (k1 k2 a b c : String) (t1 t2 : Nat)
    (hk : k1 ≠ k2) (hab : a ≠ b) :
    applyUpsert ["id"] t1
        [[("id", some k1), ("status", some a)], [("id", some k2), ("status", some c)]] [] =
      .ok [newCurrentRow t1 [("id", some k1), ("status", some a)],
           newCurrentRow t1 [("id", some k2), ("status", some c)]] ∧
    applyUpsert ["id"] t2 [[("id", some k1), ("status", some b)]]
        [newCurrentRow t1 [("id", some k1), ("status", some a)],
         newCurrentRow t1 [("id", some k2), ("status", some c)]] =
      .ok [retireRow t2 (newCurrentRow t1 [("id", some k1), ("status", some a)]),
           newCurrentRow t1 [("id", some k2), ("status", some c)],
           newCurrentRow t2 [("id", some k1), ("status", some b)]] ∧
    countCurrent ["id"] [k1]
        [retireRow t2 (newCurrentRow t1 [("id", some k1), ("status", some a)]),
         newCurrentRow t1 [("id", some k2), ("status", some c)],
         newCurrentRow t2 [("id", some k1), ("status", some b)]] = 1 ∧
    countHistoricalFor ["id"] [k1]
        [retireRow t2 (newCurrentRow t1 [("id", some k1), ("status", some a)]),
         newCurrentRow t1 [("id", some k2), ("status", some c)],
         newCurrentRow t2 [("id", some k1), ("status", some b)]] = 1 ∧
    countCurrent ["id"] [k2]
        [retireRow t2 (newCurrentRow t1 [("id", some k1), ("status", some a)]),
         newCurrentRow t1 [("id", some k2), ("status", some c)],
         newCurrentRow t2 [("id", some k1), ("status", some b)]] = 1 ∧
    countHistoricalFor ["id"] [k2]
        [retireRow t2 (newCurrentRow t1 [("id", some k1), ("status", some a)]),
         newCurrentRow t1 [("id", some k2), ("status", some c)],
         newCurrentRow t2 [("id", some k1), ("status", some b)]] = 0 := by
  refine ⟨?_, ?_, ?_, ?_, ?_, ?_⟩ <;>
    simp [applyUpsert, upsert_scd_data, dataColsOf, positionalRow, currentConflictFree,
      rowsConflict, optPairEq, lookupCol, batchKeysDistinct, upsertStmt1, upsertStmt1Row,
      onConflictUpdate, rowChanged, coalesceEmpty, upsertStmt2, upsertStmt2Row,
      hasCurrentConflict, newCurrentRow, retireRow, countCurrent, countHistoricalFor,
      matchesKey, hk, Ne.symm hk, hab, Ne.symm hab]

theorem scd_history_preservation_witness :
    applyUpsert ["id"] 1 [[("id", some "1"), ("status", some "B")]]
        [newCurrentRow 0 [("id", some "1"), ("status", some "A")],
         newCurrentRow 0 [("id", some "2"), ("status", some "C")]] =
      .ok [retireRow 1 (newCurrentRow 0 [("id", some "1"), ("status", some "A")]),
           newCurrentRow 0 [("id", some "2"), ("status", some "C")],
           newCurrentRow 1 [("id", some "1"), ("status", some "B")]] :=
  (scd_history_preservation "1" "2" "A" "B" "C" 0 1 (by decide) (by decide)).2.1

/-- C3: Applying one batch of two distinct keys to the empty store and
then applying the identical batch again leaves the store exactly as
after the first application: one current row per distinct business key,
zero historical rows, no duplicate current rows and no duplicate
history. -/
theorem scd_idempotence (k1 k2 a c : String) (t1 t2 : Nat) (hk : k1 ≠ k2) :
    applyUpsert ["id"] t1
        [[("id", some k1), ("status", some a)], [("id", some k2), ("status", some c)]] [] =
      .ok [newCurrentRow t1 [("id", some k1), ("status", some a)],
           newCurrentRow t1 [("id", some k2), ("status", some c)]] ∧
    applyUpsert ["id"] t2
        [[("id", some k1), ("status", some a)], [("id", some k2), ("status", some c)]]
        [newCurrentRow t1 [("id", some k1), ("status", some a)],
         newCurrentRow t1 [("id", some k2), ("status", some c)]] =
      .ok [newCurrentRow t1 [("id", some k1), ("status", some a)],
           newCurrentRow t1 [("id", some k2), ("status", some c)]] ∧
    countCurrent ["id"] [k1]
        [newCurrentRow t1 [("id", some k1), ("status", some a)],
         newCurrentRow t1 [("id", some k2), ("status", some c)]] = 1 ∧
    countCurrent ["id"] [k2]
        [newCurrentRow t1 [("id", some k1), ("status", some a)],
         newCurrentRow t1 [("id", some k2), ("status", some c)]] = 1 ∧
    countHistoricalTotal
        [newCurrentRow t1 [("id", some k1), ("status", some a)],
         newCurrentRow t1 [("id", some k2), ("status", some c)]] = 0 := by
  refine ⟨?_, ?_, ?_, ?_, ?_⟩ <;>
    simp [applyUpsert, upsert_scd_data, dataColsOf, positionalRow, currentConflictFree,
      rowsConflict, optPairEq, lookupCol, batchKeysDistinct, upsertStmt1, upsertStmt1Row,
      onConflictUpdate, rowChanged, coalesceEmpty, upsertStmt2, upsertStmt2Row,
      hasCurrentConflict, newCurrentRow, retireRow, countCurrent, countHistoricalTotal,
      matchesKey, hk, Ne.symm hk]

theorem scd_idempotence_witness :
    applyUpsert ["id"] 1
        [[("id", some "1"), ("status", some "A")], [("id", some "2"), ("status", some "C")]]
        [newCurrentRow 0 [("id", some "1"), ("status", some "A")],
         newCurrentRow 0 [("id", some "2"), ("status", some "C")]] =
      .ok [newCurrentRow 0 [("id", some "1"), ("status", some "A")],
           newCurrentRow 0 [("id", some "2"), ("status", some "C")]] :=
  (scd_idempotence "1" "2" "A" "C" 0 1 (by decide)).2.1

/-- C4: In the retire step, the stored current row for a business key is
retired (end_date = now, is_current = false, updated_at = now) if and
only if some non-key column of the incoming record differs from the
stored row under the COALESCE null-equality policy: the result is the
retired old row plus the new current row exactly when
COALESCE-normalised values differ, and the unchanged store otherwise.
The second conjunct is the null-to-empty-string transition: a stored
NULL against an incoming empty string triggers no retirement (and the
symmetric instance follows from the first conjunct with v = some empty,
w = none). -/
theorem retire_iff_coalesce_changed (k : String) (v w : Option String) (t0 t1 : Nat) :
    applyUpsert ["id"] t1 [[("id", some k), ("status", w)]]
        [{ data := [("id", some k), ("status", v)], effective_date := t0, end_date := none,
           is_current := true, created_at := t0, updated_at := t0 }] =
      (if coalesceEmpty v = coalesceEmpty w then
        .ok [{ data := [("id", some k), ("status", v)], effective_date := t0, end_date := none,
               is_current := true, created_at := t0, updated_at := t0 }]
      else
        .ok [{ data := [("id", some k), ("status", v)], effective_date := t0, end_date := some t1,
               is_current := false, created_at := t0, updated_at := t1 },
             newCurrentRow t1 [("id", some k), ("status", w)]]) ∧
    applyUpsert ["id"] t1 [[("id", some k), ("status", some "")]]
        [{ data := [("id", some k), ("status", none)], effective_date := t0, end_date := none,
           is_current := true, created_at := t0, updated_at := t0 }] =
      .ok [{ data := [("id", some k), ("status", none)], effective_date := t0, end_date := none,
             is_current := true, created_at := t0, updated_at := t0 }] := by
  constructor
  · simp only [coalesceEmpty]
    by_cases h : v.getD "" = w.getD ""
    · rw [if_pos h]
      simp [applyUpsert, upsert_scd_data, dataColsOf, positionalRow, currentConflictFree,
        rowsConflict, optPairEq, lookupCol, batchKeysDistinct, upsertStmt1, upsertStmt1Row,
        onConflictUpdate, rowChanged, coalesceEmpty, upsertStmt2, upsertStmt2Row,
        hasCurrentConflict, newCurrentRow, retireRow, h]
    · rw [if_neg h]
      simp [applyUpsert, upsert_scd_data, dataColsOf, positionalRow, currentConflictFree,
        rowsConflict, optPairEq, lookupCol, batchKeysDistinct, upsertStmt1, upsertStmt1Row,
        onConflictUpdate, rowChanged, coalesceEmpty, upsertStmt2, upsertStmt2Row,
        hasCurrentConflict, newCurrentRow, retireRow, h]
  · simp [applyUpsert, upsert_scd_data, dataColsOf, positionalRow, currentConflictFree,
      rowsConflict, optPairEq, lookupCol, batchKeysDistinct, upsertStmt1, upsertStmt1Row,
      onConflictUpdate, rowChanged, coalesceEmpty, upsertStmt2, upsertStmt2Row,
      hasCurrentConflict, newCurrentRow, retireRow]

/-- C5: Evaluating the type inference of `sync_delta_to_postgres_scd` at
a batch whose first record holds a boolean value: the code infers
INTEGER, not BOOLEAN.  In Python `bool` is a subclass of `int`, so
`isinstance(value, int)` is true for booleans and the first branch wins;
the `elif isinstance(value, bool)` branch of the source (line 317) is
unreachable, while the spec says a boolean value yields a boolean
column.  Later records indeed do not affect the result (second record
ignored below). -/
theorem bool_inferred_as_integer :
    inferColumnTypes [[("flag", PyVal.vbool true)], [("flag", PyVal.vstr "x")]] =
      [("flag", "INTEGER")] ∧
    inferColType (PyVal.vbool false) = "INTEGER" := by
  constructor
  · rfl
  · rfl

/-- C6 counterexample: the sync invoked on a source read that yields an
empty batch returns success with NO summary at all (the Python function
returns None at line 283), not a summary whose rows-processed count is
zero; the store is untouched. -/
theorem sync_empty_no_summary_counterexample :
    sync_delta_to_postgres_scd (fun _ => some [])
      { returncode := 0, stdout := "[\n]", stderr := "" }
      "catalog.schema.table" "public" "missions" ["id"] none 0 pgEmpty =
      .ok (pgEmpty, none) := by
  rfl

/-- C6 amended: invoking the sync with an empty batch succeeds as a
no-op: the store is returned unchanged (no table creation, no index
creation, no writes), but no summary is produced (the function returns
None), rather than a summary with a zero rows-processed count. -/
theorem sync_empty_batch_noop (J : String → Option (List PyRow)) (res : SubprocResult)
    (delta_table pg_schema pg_table : String) (bk : List String)
    (cm : Option (List (String × String))) (now : Nat) (st : PgState)
    (hread : read_delta_table J res = .ok []) :
    sync_delta_to_postgres_scd J res delta_table pg_schema pg_table bk cm now st =
      .ok (st, none) := by
  unfold sync_delta_to_postgres_scd
  rw [hread]
  rfl

theorem sync_empty_batch_noop_witness :
    sync_delta_to_postgres_scd (fun _ => some [])
      { returncode := 0, stdout := "", stderr := "" }
      "catalog.schema.table" "public" "missions" ["id"] none 0 pgEmpty =
      .ok (pgEmpty, none) :=
  sync_empty_batch_noop (fun _ => some []) { returncode := 0, stdout := "", stderr := "" }
    "catalog.schema.table" "public" "missions" ["id"] none 0 pgEmpty rfl

/-- C7 counterexample: calling `upsert_scd_data` with an empty
business-key list and a non-empty batch does not fail before I/O with a
configuration error: the code performs no validation, issues the index
DDL to the store (the executed-query trace is non-empty), and the
failure is the store rejecting that DDL. -/
theorem upsert_empty_key_reaches_storage :
    upsert_scd_data [] 0 [[("id", some "1"), ("status", some "A")]] [] =
      (["index_sql"], .error "syntax error in CREATE UNIQUE INDEX: empty column list") ∧
    (["index_sql"] : List String) ≠ [] := by
  exact ⟨rfl, by decide⟩

/-- C7 amended: there is no pre-I/O validation of the business key and no
ConfigurationError: with an empty business_key list and a non-empty
batch, `upsert_scd_data` issues the index DDL to the store (the
executed-query trace is non-empty, so I/O happens) and the store rejects
that malformed DDL; the failure surfaces as a generic query-execution
error raised from the storage call, not before it. -/
theorem upsert_invalid_key_storage_error (now : Nat)
    (data : List Row) (st : List StoredRow) (hne : data ≠ []) :
    ∃ e, upsert_scd_data [] now data st = (["index_sql"], .error e) := by
  refine ⟨"syntax error in CREATE UNIQUE INDEX: empty column list", ?_⟩
  unfold upsert_scd_data
  rw [if_neg (by simp [List.isEmpty_iff, hne])]
  rfl

theorem upsert_invalid_key_storage_error_witness :
    ∃ e, upsert_scd_data [] 0 [[("id", some "1"), ("status", some "A")]] [] =
      (["index_sql"], .error e) :=
  upsert_invalid_key_storage_error 0 [[("id", some "1"), ("status", some "A")]] []
    (by decide)

lemma scanLines_none (J : String → Option (List PyRow)) (hJ : ∀ s, J s = none) :
    ∀ (ls : List String) (inArr : Bool) (content : String),
      scanLines J ls inArr content = [] := by
  intro ls
  induction ls with
  | nil => intro inArr content; rfl
  | cons l rest ih =>
    intro inArr content
    simp only [scanLines]
    split_ifs with hb hi hc
    · exact ih true "["
    · rw [hJ]
    · exact ih true (content ++ "\n" ++ pyStrip l)
    · exact ih inArr content

/-- C8 counterexample: a scanner run that exits successfully but prints
an unparseable JSON array body is NOT fatal: `read_delta_table` catches
the decode error, logs it and returns the empty batch as a success.  The
parser argument rejecting every string models `json.loads` failing on
the collected text. -/
theorem unparseable_output_not_fatal :
    read_delta_table (fun _ => none)
      { returncode := 0, stdout := "[\nnot valid json\n]", stderr := "" } = .ok [] := by
  rfl

/-- C8 amended: a source read with non-zero exit status is fatal to the
whole invocation with no retry (the exception propagates out of the sync
before any storage access, so nothing is partially applied), but a read
that returns unparseable data is NOT fatal: the decode error is
swallowed and the empty batch is returned, so the invocation proceeds as
an empty-batch no-op. -/
theorem read_failure_and_parse_swallow
    (J1 : String → Option (List PyRow)) (res1 : SubprocResult) (h1 : res1.returncode ≠ 0)
    (delta_table pg_schema pg_table : String) (bk : List String)
    (cm : Option (List (String × String))) (now : Nat) (st : PgState)
    (J2 : String → Option (List PyRow)) (res2 : SubprocResult)
    (h2 : res2.returncode = 0) (hJ2 : ∀ s, J2 s = none) :
    read_delta_table J1 res1 = .error ("Delta scanner failed: " ++ res1.stderr) ∧
    sync_delta_to_postgres_scd J1 res1 delta_table pg_schema pg_table bk cm now st =
      .error ("Delta scanner failed: " ++ res1.stderr) ∧
    read_delta_table J2 res2 = .ok [] := by
  have hr1 : read_delta_table J1 res1 = .error ("Delta scanner failed: " ++ res1.stderr) := by
    unfold read_delta_table
    rw [if_pos h1]
  refine ⟨hr1, ?_, ?_⟩
  · unfold sync_delta_to_postgres_scd
    rw [hr1]
  · unfold read_delta_table
    rw [if_neg (by simp [h2]), scanLines_none J2 hJ2]

theorem read_failure_and_parse_swallow_witness :
    read_delta_table (fun _ => none) { returncode := 1, stdout := "", stderr := "boom" } =
      .error ("Delta scanner failed: " ++ "boom") ∧
    sync_delta_to_postgres_scd (fun _ => none)
      { returncode := 1, stdout := "", stderr := "boom" }
      "catalog.schema.table" "public" "missions" ["id"] none 0 pgEmpty =
      .error ("Delta scanner failed: " ++ "boom") ∧
    read_delta_table (fun _ => none)
      { returncode := 0, stdout := "[\nbad\n]", stderr := "" } = .ok [] :=
  read_failure_and_parse_swallow (fun _ => none)
    { returncode := 1, stdout := "", stderr := "boom" } (by decide)
    "catalog.schema.table" "public" "missions" ["id"] none 0 pgEmpty
    (fun _ => none) { returncode := 0, stdout := "[\nbad\n]", stderr := "" }
    rfl (fun _ => rfl)

lemma mergeColumns_disjoint (cols : List (String × String))
    (hdisj : cols.all (fun p => !(scd_columns.any (fun q => q.1 == p.1))) = true) :
    mergeColumns cols = cols ++ scd_columns := by
  unfold mergeColumns
  have hnof : ∀ p ∈ cols, scd_columns.find? (fun q => q.1 == p.1) = none := by
    intro p hp
    have h1 := List.all_eq_true.mp hdisj p hp
    rw [Bool.not_eq_true'] at h1
    apply List.find?_eq_none.mpr
    intro q hq hqt
    have hany : scd_columns.any (fun q => q.1 == p.1) = true :=
      List.any_eq_true.mpr ⟨q, hq, hqt⟩
    rw [h1] at hany
    cases hany
  have hmap : cols.map (fun p =>
      (p.1, ((scd_columns.find? (fun q => q.1 == p.1)).map (fun q => q.2)).getD p.2)) = cols := by
    have hcg := List.map_congr_left (l := cols)
      (f := fun p => (p.1, ((scd_columns.find? (fun q => q.1 == p.1)).map (fun q => q.2)).getD p.2))
      (g := id) ?_
    · simpa using hcg
    · intro p hp
      show (p.1, (Option.map (fun q => q.2)
        (List.find? (fun q => q.1 == p.1) scd_columns)).getD p.2) = id p
      rw [hnof p hp]
      rfl
  have hfil : scd_columns.filter (fun q => !(cols.any (fun p => p.1 == q.1))) = scd_columns := by
    apply List.filter_eq_self.mpr
    intro q hq
    rw [Bool.not_eq_true']
    cases hA : cols.any (fun p => p.1 == q.1)
    · rfl
    · rcases List.any_eq_true.mp hA with ⟨p, hp, hpq⟩
      have h1 := List.all_eq_true.mp hdisj p hp
      rw [Bool.not_eq_true'] at h1
      have hany : scd_columns.any (fun q2 => q2.1 == p.1) = true :=
        List.any_eq_true.mpr ⟨q, hq, by rw [string_beq_symm]; exact hpq⟩
      rw [h1] at hany
      cases hany
  rw [hmap, hfil]

lemma addSchema_tables (n : String) (st : PgState) : (addSchema n st).tables = st.tables := by
  unfold addSchema; split <;> rfl

lemma addSchema_indexes (n : String) (st : PgState) : (addSchema n st).indexes = st.indexes := by
  unfold addSchema; split <;> rfl

lemma addSchema_rows (n : String) (st : PgState) : (addSchema n st).rows = st.rows := by
  unfold addSchema; split <;> rfl

lemma addTable_schemas (sn tn : String) (cs : List (String × String)) (st : PgState) :
    (addTable sn tn cs st).schemas = st.schemas := by
  unfold addTable; split <;> rfl

lemma addTable_indexes (sn tn : String) (cs : List (String × String)) (st : PgState) :
    (addTable sn tn cs st).indexes = st.indexes := by
  unfold addTable; split <;> rfl

lemma addTable_rows (sn tn : String) (cs : List (String × String)) (st : PgState) :
    (addTable sn tn cs st).rows = st.rows := by
  unfold addTable; split <;> rfl

lemma addIndexIfAbsent_schemas (n : String) (cs : List String) (st : PgState) :
    (addIndexIfAbsent n cs st).schemas = st.schemas := by
  unfold addIndexIfAbsent; split <;> rfl

lemma addIndexIfAbsent_tables (n : String) (cs : List String) (st : PgState) :
    (addIndexIfAbsent n cs st).tables = st.tables := by
  unfold addIndexIfAbsent; split <;> rfl

lemma addIndexIfAbsent_rows (n : String) (cs : List String) (st : PgState) :
    (addIndexIfAbsent n cs st).rows = st.rows := by
  unfold addIndexIfAbsent; split <;> rfl

lemma addSchema_mem (n : String) (st : PgState) : n ∈ (addSchema n st).schemas := by
  unfold addSchema
  split
  · rename_i h
    simpa using h
  · simp

/-- C9 counterexample: `create_scd_table` does not create the table with
EXACTLY the union of the business columns and the five bookkeeping
columns: the created column list also contains the surrogate key
`scd_id SERIAL PRIMARY KEY` (six fixed columns in the source, lines
143-150), which is neither a business column nor one of the five named
bookkeeping columns. -/
theorem create_table_includes_scd_id :
    create_scd_table "s" "t" [("mission_id", "TEXT"), ("name", "TEXT")] pgEmpty =
      .ok { schemas := ["s"],
            tables := [{ schema := "s", name := "t",
                         cols := [("mission_id", "TEXT"), ("name", "TEXT")] ++ scd_columns }],
            indexes := [{ name := "idx_t_business_key_effective",
                          cols := ["mission_id", "effective_date"] }],
            rows := [] } ∧
    ("scd_id", "SERIAL PRIMARY KEY") ∈ mergeColumns [("mission_id", "TEXT"), ("name", "TEXT")] ∧
    "scd_id" ∉ ["mission_id", "name", "effective_date", "end_date", "is_current",
                "created_at", "updated_at"] := by
  refine ⟨rfl, by decide, by decide⟩

lemma addSchema_of_mem (n : String) (st : PgState) (h : n ∈ st.schemas) :
    addSchema n st = st := by
  unfold addSchema
  rw [if_pos (by simpa using h)]

lemma addTable_of_any (sn tn : String) (cs : List (String × String)) (st : PgState)
    (h : st.tables.any (fun t => t.schema == sn && t.name == tn) = true) :
    addTable sn tn cs st = st := by
  unfold addTable
  rw [if_pos h]

lemma addIndexIfAbsent_of_any (n : String) (cs : List String) (st : PgState)
    (h : st.indexes.any (fun i => i.name == n) = true) :
    addIndexIfAbsent n cs st = st := by
  unfold addIndexIfAbsent
  rw [if_pos h]

/-- C9 amended: on a fresh table name, `create_scd_table` creates the
containing schema if absent, creates the table with the union of the
business columns, the surrogate key scd_id and the five bookkeeping
columns, and creates the uniqueness index on (first key-like column by
the naming heuristic, effective_date); the row store is untouched, and a
repeated call with the identical shape is a no-op returning the state
unchanged. -/
theorem create_scd_table_ensures (schema_name table_name : String)
    (cols : List (String × String)) (st : PgState)
    (hkey : ((cols.map (fun p => p.1)).filter keyLike).take 1 ≠ [])
    (hdisj : cols.all (fun p => !(scd_columns.any (fun q => q.1 == p.1))) = true)
    (htab : st.tables.any (fun t => t.schema == schema_name && t.name == table_name) = false)
    (hidx : st.indexes.any
      (fun i => i.name == "idx_" ++ table_name ++ "_business_key_effective") = false) :
    ∃ st', create_scd_table schema_name table_name cols st = .ok st' ∧
      schema_name ∈ st'.schemas ∧
      PgTable.mk schema_name table_name (cols ++ scd_columns) ∈ st'.tables ∧
      PgIndex.mk ("idx_" ++ table_name ++ "_business_key_effective")
        (((cols.map (fun p => p.1)).filter keyLike).take 1 ++ ["effective_date"]) ∈ st'.indexes ∧
      st'.rows = st.rows ∧
      create_scd_table schema_name table_name cols st' = .ok st' := by
  have htab2 : ((addSchema schema_name st).tables.any
      (fun t => t.schema == schema_name && t.name == table_name)) = false := by
    rw [addSchema_tables, htab]
  have hT : (addTable schema_name table_name cols (addSchema schema_name st)).tables =
      (addSchema schema_name st).tables ++
        [PgTable.mk schema_name table_name (mergeColumns cols)] := by
    unfold addTable
    rw [htab2]
    simp
  have hI : (addIndexIfAbsent ("idx_" ++ table_name ++ "_business_key_effective")
        (((cols.map (fun p => p.1)).filter keyLike).take 1 ++ ["effective_date"])
        (addTable schema_name table_name cols (addSchema schema_name st))).indexes =
      st.indexes ++ [PgIndex.mk ("idx_" ++ table_name ++ "_business_key_effective")
        (((cols.map (fun p => p.1)).filter keyLike).take 1 ++ ["effective_date"])] := by
    unfold addIndexIfAbsent
    rw [addTable_indexes, addSchema_indexes, hidx]
    simp
  have hmemS : schema_name ∈ (addIndexIfAbsent ("idx_" ++ table_name ++ "_business_key_effective")
      (((cols.map (fun p => p.1)).filter keyLike).take 1 ++ ["effective_date"])
      (addTable schema_name table_name cols (addSchema schema_name st))).schemas := by
    rw [addIndexIfAbsent_schemas, addTable_schemas]
    exact addSchema_mem schema_name st
  have hmemT : PgTable.mk schema_name table_name (mergeColumns cols) ∈
      (addIndexIfAbsent ("idx_" ++ table_name ++ "_business_key_effective")
        (((cols.map (fun p => p.1)).filter keyLike).take 1 ++ ["effective_date"])
        (addTable schema_name table_name cols (addSchema schema_name st))).tables := by
    rw [addIndexIfAbsent_tables, hT]
    simp
  have hmemI : PgIndex.mk ("idx_" ++ table_name ++ "_business_key_effective")
      (((cols.map (fun p => p.1)).filter keyLike).take 1 ++ ["effective_date"]) ∈
      (addIndexIfAbsent ("idx_" ++ table_name ++ "_business_key_effective")
        (((cols.map (fun p => p.1)).filter keyLike).take 1 ++ ["effective_date"])
        (addTable schema_name table_name cols (addSchema schema_name st))).indexes := by
    rw [hI]
    simp
  refine ⟨addIndexIfAbsent ("idx_" ++ table_name ++ "_business_key_effective")
      (((cols.map (fun p => p.1)).filter keyLike).take 1 ++ ["effective_date"])
      (addTable schema_name table_name cols (addSchema schema_name st)), ?_, ?_, ?_, ?_, ?_, ?_⟩
  · unfold create_scd_table
    rw [if_neg (by simp [List.isEmpty_iff, hkey])]
  · exact hmemS
  · rw [← mergeColumns_disjoint cols hdisj]
    exact hmemT
  · exact hmemI
  · rw [addIndexIfAbsent_rows, addTable_rows, addSchema_rows]
  · unfold create_scd_table
    rw [if_neg (by simp [List.isEmpty_iff, hkey])]
    rw [addSchema_of_mem _ _ hmemS,
      addTable_of_any _ _ _ _ (List.any_eq_true.mpr ⟨_, hmemT, by simp⟩),
      addIndexIfAbsent_of_any _ _ _ (List.any_eq_true.mpr ⟨_, hmemI, by simp⟩)]

theorem create_scd_table_ensures_witness :
    ∃ st', create_scd_table "public" "missions"
        [("mission_id", "TEXT"), ("name", "TEXT")] pgEmpty = .ok st' ∧
      "public" ∈ st'.schemas ∧
      PgTable.mk "public" "missions"
        ([("mission_id", "TEXT"), ("name", "TEXT")] ++ scd_columns) ∈ st'.tables ∧
      PgIndex.mk ("idx_" ++ "missions" ++ "_business_key_effective")
        ((([("mission_id", "TEXT"), ("name", "TEXT")].map
          (fun p => p.1)).filter keyLike).take 1 ++ ["effective_date"]) ∈ st'.indexes ∧
      st'.rows = pgEmpty.rows ∧
      create_scd_table "public" "missions" [("mission_id", "TEXT"), ("name", "TEXT")] st' = .ok st' :=
  create_scd_table_ensures "public" "missions" [("mission_id", "TEXT"), ("name", "TEXT")]
    pgEmpty (by decide) (by decide) rfl rfl

/-- C10: Whenever no business column name contains the substring id or
key (case-insensitively), the column list of the generated CREATE UNIQUE
INDEX statement of `create_scd_table` has an empty first element, i.e.
the DDL is malformed, and the store rejects the whole statement batch;
well-formed DDL therefore needs at least one key-like business column. -/
theorem no_keylike_column_malformed_index (columns : List (String × String))
    (h : ∀ c ∈ columns.map (fun p => p.1), keyLike c = false)
    (st : PgState) (schema_name table_name : String) :
    (indexColumnList columns).head? = some "" ∧
    create_scd_table schema_name table_name columns st =
      .error "syntax error in CREATE UNIQUE INDEX: empty leading column" := by
  have hfil : (columns.map (fun p => p.1)).filter keyLike = [] := by
    rw [List.filter_eq_nil_iff]
    intro c hc
    simp [h c hc]
  constructor
  · unfold indexColumnList
    rw [hfil]
    rfl
  · unfold create_scd_table
    rw [hfil]
    rfl

theorem no_keylike_column_malformed_index_witness :
    (indexColumnList [("name", "TEXT")]).head? = some "" ∧
    create_scd_table "s" "t" [("name", "TEXT")] pgEmpty =
      .error "syntax error in CREATE UNIQUE INDEX: empty leading column" :=
  no_keylike_column_malformed_index [("name", "TEXT")] (by decide) pgEmpty "s" "t"
